import Mathlib

/-!
# mtc_pour : `src/demo_utils.hpp`

A shallow embedding of the demo helpers of `mtc_pour`:

* `ExecuteFirstSolution::monitorSolution`, the playback of one received
  `Solution`, as a function that returns the sequence of effects the callback
  performs (subscription shutdown, log lines, console read, Motion Executor
  calls, Scene Store calls, `ros::shutdown`);
* `setupTable` and `setupObjects`, the scene initialisers, as functions that
  return the Scene Store calls they make, with the collision objects they
  build.

Conventions of the embedding.

* The ROS / MoveIt services (Motion Executor, Scene Store, mesh loader, shape
  extents) are external.  Their answers are parameters of the embedded
  functions: the outcome of the `n`-th `execute` call, the map returned by
  `getAttachedObjects`, the mesh a resource resolves to, the extents of a mesh.
* A C++ `double` is modelled by the rational number it denotes and arithmetic
  on it is exact: rounding, infinities and NaN are outside the model.
* `std::vector` is `List`; `resize`, `v[i] = x` and `v.back()` are the list
  functions `resize`, `assignAt` / `modifyAt` and `modifyBack` below.
-/

namespace MtcPour

/-! ## Containers -/

/-- The call `v.resize(n)` of `std::vector`: truncate, or pad with
value-initialised elements. -/
def resize {α : Type} [Inhabited α] (v : List α) (n : Nat) : List α :=
  v.take n ++ List.replicate (n - v.length) default

/-- The update `v[i].f = x` of `std::vector`, for an index in range. -/
def modifyAt {α : Type} (v : List α) (i : Nat) (f : α → α) : List α :=
  match v.get? i with
  | some a => v.set i (f a)
  | none => v

/-- The assignment `v[i] = x` of `std::vector`, for an index in range. -/
def assignAt {α : Type} (v : List α) (i : Nat) (x : α) : List α :=
  modifyAt v i (fun _ => x)

/-- An update of `v.back()`. -/
def modifyBack {α : Type} (v : List α) (f : α → α) : List α :=
  match v.getLast? with
  | some a => v.dropLast ++ [f a]
  | none => v

/-- The call `m.count(key)` of a `std::map`, here an association list. -/
def mapCount {α : Type} (m : List (String × α)) (key : String) : Nat :=
  if (m.lookup key).isSome then 1 else 0

/-- The access `m[key]` of a `std::map`, here an association list. -/
def mapAt {α : Type} [Inhabited α] (m : List (String × α)) (key : String) : α :=
  (m.lookup key).getD default

/-! ## Messages -/

/-- Message `std_msgs/Header`. -/
structure Header where
  seq : Nat := 0
  stamp : Nat := 0
  frame_id : String := ""
  deriving DecidableEq, Repr, Inhabited

/-- Message `geometry_msgs/Point`. -/
structure Point where
  x : ℚ := 0
  y : ℚ := 0
  z : ℚ := 0
  deriving DecidableEq, Repr, Inhabited

/-- Message `geometry_msgs/Quaternion`; the message default is all zero. -/
structure Quaternion where
  x : ℚ := 0
  y : ℚ := 0
  z : ℚ := 0
  w : ℚ := 0
  deriving DecidableEq, Repr, Inhabited

/-- Message `geometry_msgs/Pose`. -/
structure Pose where
  position : Point := {}
  orientation : Quaternion := {}
  deriving DecidableEq, Repr, Inhabited

/-- Message `geometry_msgs/PoseStamped`. -/
structure PoseStamped where
  header : Header := {}
  pose : Pose := {}
  deriving DecidableEq, Repr, Inhabited

/-- Message `shape_msgs/SolidPrimitive`. -/
structure SolidPrimitive where
  type : Nat := 0
  dimensions : List ℚ := []
  deriving DecidableEq, Repr, Inhabited

/-- Constant `shape_msgs::SolidPrimitive::BOX`. -/
def SolidPrimitive.BOX : Nat := 1

/-- Constant `shape_msgs::SolidPrimitive::BOX_X`. -/
def SolidPrimitive.BOX_X : Nat := 0

/-- Constant `shape_msgs::SolidPrimitive::BOX_Y`. -/
def SolidPrimitive.BOX_Y : Nat := 1

/-- Constant `shape_msgs::SolidPrimitive::BOX_Z`. -/
def SolidPrimitive.BOX_Z : Nat := 2

/-- Message `shape_msgs/Mesh`: triangles (vertex indices) and vertices. -/
structure Mesh where
  triangles : List (Nat × Nat × Nat) := []
  vertices : List Point := []
  deriving DecidableEq, Repr, Inhabited

/-- Message `moveit_msgs/CollisionObject`. -/
structure CollisionObject where
  header : Header := {}
  id : String := ""
  primitives : List SolidPrimitive := []
  primitive_poses : List Pose := []
  meshes : List Mesh := []
  mesh_poses : List Pose := []
  operation : Nat := 0
  deriving DecidableEq, Repr, Inhabited

/-- Constant `moveit_msgs::CollisionObject::ADD`. -/
def CollisionObject.ADD : Nat := 0

/-- Constant `moveit_msgs::CollisionObject::REMOVE`. -/
def CollisionObject.REMOVE : Nat := 1

/-- Message `moveit_msgs/AttachedCollisionObject`. -/
structure AttachedCollisionObject where
  link_name : String := ""
  object : CollisionObject := {}
  touch_links : List String := []
  deriving DecidableEq, Repr, Inhabited

/-- Message `trajectory_msgs/JointTrajectoryPoint`. -/
structure JointTrajectoryPoint where
  positions : List ℚ := []
  time_from_start : ℚ := 0
  deriving DecidableEq, Repr, Inhabited

/-- Message `trajectory_msgs/JointTrajectory`. -/
structure JointTrajectory where
  joint_names : List String := []
  points : List JointTrajectoryPoint := []
  deriving DecidableEq, Repr, Inhabited

/-- Message `moveit_msgs/RobotTrajectory`. -/
structure RobotTrajectory where
  joint_trajectory : JointTrajectory := {}
  deriving DecidableEq, Repr, Inhabited

/-- Message `moveit_msgs/PlanningScene`, used as a scene diff.  The code only
hands it on to the Scene Store. -/
structure PlanningScene where
  name : String := ""
  is_diff : Bool := false
  deriving DecidableEq, Repr, Inhabited

/-- Message `moveit_task_constructor_msgs/SubTrajectory`. -/
structure SubTrajectory where
  id : Nat := 0
  trajectory : RobotTrajectory := {}
  scene_diff : PlanningScene := {}
  deriving DecidableEq, Repr, Inhabited

/-- Message `moveit_task_constructor_msgs/Solution`. -/
structure Solution where
  sub_trajectory : List SubTrajectory := []
  deriving DecidableEq, Repr, Inhabited

/-- The type `MoveGroupInterface::Plan`; the code only sets `trajectory_`. -/
structure Plan where
  trajectory_ : RobotTrajectory := {}
  deriving DecidableEq, Repr, Inhabited

/-! ## Effects -/

/-- The calls a function of `demo_utils.hpp` makes on its surroundings. -/
inductive Effect where
  /-- The call `listener_.shutdown()`. -/
  | listenerShutdown
  /-- A line of `ROS_INFO` / `ROS_INFO_STREAM`. -/
  | info (msg : String)
  /-- A line of `ROS_ERROR`. -/
  | error (msg : String)
  /-- The call `std::cin.get()`. -/
  | consoleRead
  /-- The call `mgi.execute(plan)` (Motion Executor). -/
  | execute (plan : Plan)
  /-- The call `psi.applyPlanningScene(diff)` (Scene Store). -/
  | applyPlanningScene (diff : PlanningScene)
  /-- The call `ros::shutdown()`. -/
  | rosShutdown
  /-- The call `psi.getAttachedObjects(ids)` (Scene Store). -/
  | getAttachedObjects (ids : List String)
  /-- The call `psi.applyAttachedCollisionObject(obj)` (Scene Store). -/
  | applyAttachedCollisionObject (obj : AttachedCollisionObject)
  /-- The call `psi.applyCollisionObject(obj)` (Scene Store). -/
  | applyCollisionObject (obj : CollisionObject)
  /-- The call `psi.applyCollisionObjects(objs)` (Scene Store). -/
  | applyCollisionObjects (objs : List CollisionObject)
  deriving DecidableEq, Repr

/-! ## The class `ExecuteFirstSolution` -/

/-- The class `ExecuteFirstSolution`.  `listener_` is the state of the
subscription handle: `true` from `nh.subscribe` (line 25) until
`listener_.shutdown()`. -/
structure ExecuteFirstSolution where
  listener_ : Bool
  planning_group_ : String
  deriving DecidableEq, Repr

/-- The constructor of `ExecuteFirstSolution` (lines 20-27): it stores the
planning group and subscribes `monitorSolution` to the topic. -/
def ExecuteFirstSolution.ctor (_topic : String) (planning_group : String) :
    ExecuteFirstSolution :=
  { listener_ := true, planning_group_ := planning_group }

/-- The loop of `monitorSolution` (lines 45-59) over the remaining segments.
`outcome n` is what the Motion Executor reports for the call number `n` (from
zero) and `n` is the number of calls made so far.  The result is the effects
of the loop and whether the loop ran to its end (`false`: the `return` of line
55 was taken). -/
def monitorLoop (outcome : Nat → Bool) : Nat → List SubTrajectory → List Effect × Bool
  | _, [] => ([], true)
  | n, traj :: rest =>
    if traj.trajectory.joint_trajectory.points.isEmpty then
      let r := monitorLoop outcome n rest
      (Effect.info "skipping empty trajectory"
        :: Effect.applyPlanningScene traj.scene_diff :: r.1, r.2)
    else
      let plan : Plan := { trajectory_ := traj.trajectory }
      if !(outcome n) then
        ([Effect.info ("executing subtrajectory " ++ toString traj.id),
          Effect.execute plan,
          Effect.error "Execution failed! Aborting!",
          Effect.rosShutdown], false)
      else
        let r := monitorLoop outcome (n + 1) rest
        (Effect.info ("executing subtrajectory " ++ toString traj.id)
          :: Effect.execute plan
          :: Effect.applyPlanningScene traj.scene_diff :: r.1, r.2)

/-- The callback `ExecuteFirstSolution::monitorSolution` (lines 29-63): the
object after the call and the effects of the call, in order.  The construction
of `psi` and `mgi` (lines 38-39) calls neither the Motion Executor nor the
Scene Store and is taken to succeed. -/
def monitorSolution (self : ExecuteFirstSolution) (outcome : Nat → Bool)
    (solution : Solution) : ExecuteFirstSolution × List Effect :=
  let self := { self with listener_ := false }
  let r := monitorLoop outcome 0 solution.sub_trajectory
  (self,
    [Effect.listenerShutdown,
     Effect.info "Received first solution. Executing.",
     Effect.info "waiting for confirmation",
     Effect.consoleRead]
    ++ r.1
    ++ (if r.2 then [Effect.info "Executed successfully.", Effect.rosShutdown] else []))

/-! ## Delivery of inbound messages -/

/-- A node that owns one `ExecuteFirstSolution`: the object, the number of
times its callback was entered, and the effects so far. -/
structure Node where
  handler : ExecuteFirstSolution
  entered : Nat
  trace : List Effect

/-- Delivery of one inbound message by the transport (roscpp, external), one
message at a time: the callback subscribed at line 25 runs when the
subscription handle is still active, and the message is dropped otherwise.
`msg.1` is the Motion Executor's outcomes during that callback. -/
def deliver (node : Node) (msg : (Nat → Bool) × Solution) : Node :=
  if node.handler.listener_ then
    let r := monitorSolution node.handler msg.1 msg.2
    { handler := r.1, entered := node.entered + 1, trace := node.trace ++ r.2 }
  else
    node

/-- Delivery of a sequence of inbound messages to a freshly constructed
`ExecuteFirstSolution`. -/
def deliverAll (topic planning_group : String) (msgs : List ((Nat → Bool) × Solution)) : Node :=
  msgs.foldl deliver
    { handler := ExecuteFirstSolution.ctor topic planning_group, entered := 0, trace := [] }

/-! ## Scene initialisers -/

/-- The function `collisionObjectFromResource` (lines 71-88).
`createMeshFromResource` is the external mesh loader followed by
`constructMsgFromShape`: the mesh message a resource resolves to (with the
scaling `(1, 1, 1)` of line 75). -/
def collisionObjectFromResource (createMeshFromResource : String → Mesh)
    (msg : CollisionObject) (id : String) (resource : String) : CollisionObject :=
  let msg := { msg with meshes := resize msg.meshes 1 }
  let msg := { msg with meshes := assignAt msg.meshes 0 (createMeshFromResource resource) }
  let msg := { msg with mesh_poses := resize msg.mesh_poses 1 }
  let msg := { msg with mesh_poses := (modifyAt msg.mesh_poses 0
    (fun p => { p with orientation := { p.orientation with w := 1.0 } })) }
  let msg := { msg with id := id }
  { msg with operation := CollisionObject.ADD }

/-- The function `computeMeshHeight` (lines 90-94).  `getShapeExtents` is the
external `geometric_shapes::getShapeExtents`, which gives the extents of a
mesh along x, y and z. -/
def computeMeshHeight (getShapeExtents : Mesh → ℚ × ℚ × ℚ) (mesh : Mesh) : ℚ :=
  (getShapeExtents mesh).2.2

/-- The function `setupTable` (lines 96-119): the Scene Store calls it makes. -/
def setupTable (tabletop_pose : PoseStamped) : List Effect :=
  let table : CollisionObject := {}
  let table := { table with id := "table" }
  let table := { table with header := tabletop_pose.header }
  let table := { table with operation := CollisionObject.ADD }
  let table := { table with primitive_poses := resize table.primitive_poses 1 }
  let table := { table with primitive_poses := assignAt table.primitive_poses 0 tabletop_pose.pose }
  let table := { table with primitive_poses := (modifyAt table.primitive_poses 0
    (fun p => { p with orientation := { p.orientation with w := 1 } })) }
  let table := { table with primitive_poses := (modifyAt table.primitive_poses 0
    (fun p => { p with position := { p.position with z := -0.15 - 0.05 } })) }
  let table := { table with primitives := resize table.primitives 1 }
  let table := { table with primitives := (modifyAt table.primitives 0
    (fun s => { s with type := SolidPrimitive.BOX })) }
  let table := { table with primitives := (modifyAt table.primitives 0
    (fun s => { s with dimensions := resize s.dimensions 3 })) }
  let table := { table with primitives := (modifyAt table.primitives 0
    (fun s => { s with dimensions := assignAt s.dimensions SolidPrimitive.BOX_X 0.5 })) }
  let table := { table with primitives := (modifyAt table.primitives 0
    (fun s => { s with dimensions := assignAt s.dimensions SolidPrimitive.BOX_Y 1.0 })) }
  let table := { table with primitives := (modifyAt table.primitives 0
    (fun s => { s with dimensions := assignAt s.dimensions SolidPrimitive.BOX_Z 0.1 })) }
  [Effect.applyCollisionObject table]

/-- The default of the parameter `bottle_mesh` of `setupObjects`. -/
def defaultBottleMesh : String := "package://mtc_pour/meshes/bottle.stl"

/-- The default of the parameter `glass_mesh` of `setupObjects`. -/
def defaultGlassMesh : String := "package://mtc_pour/meshes/glass.stl"

/-- The function `setupObjects` (lines 121-167): the Scene Store calls it
makes.  `getAttachedObjects ids` is the map the Scene Store returns for the
query of line 132. -/
def setupObjects
    (getAttachedObjects : List String → List (String × AttachedCollisionObject))
    (createMeshFromResource : String → Mesh)
    (getShapeExtents : Mesh → ℚ × ℚ × ℚ)
    (bottle_pose glass_pose : PoseStamped)
    (bottle_mesh : String := defaultBottleMesh)
    (glass_mesh : String := defaultGlassMesh) : List Effect :=
  let objects : List CollisionObject := []
  -- lines 131-137
  let attached_objects := getAttachedObjects ["bottle"]
  let removal : List Effect :=
    if mapCount attached_objects "bottle" > 0 then
      let attached := mapAt attached_objects "bottle"
      let attached :=
        { attached with object := { attached.object with operation := CollisionObject.REMOVE } }
      [Effect.applyAttachedCollisionObject attached]
    else
      []
  -- lines 139-151: add bottle
  let objects := objects ++ [({} : CollisionObject)]
  let objects := modifyBack objects
    (fun o => collisionObjectFromResource createMeshFromResource o "bottle" bottle_mesh)
  let objects := modifyBack objects (fun o => { o with header := bottle_pose.header })
  let objects := modifyBack objects
    (fun o => { o with mesh_poses := assignAt o.mesh_poses 0 bottle_pose.pose })
  let objects := modifyBack objects (fun o => { o with mesh_poses := (modifyAt o.mesh_poses 0
    (fun p => { p with position := { p.position with z := (p.position.z
      + (computeMeshHeight getShapeExtents (o.meshes.getD 0 default) / 2 + 0.002)) } })) })
  -- lines 153-164: add glass
  let objects := objects ++ [({} : CollisionObject)]
  let objects := modifyBack objects
    (fun o => collisionObjectFromResource createMeshFromResource o "glass" glass_mesh)
  let objects := modifyBack objects (fun o => { o with header := glass_pose.header })
  let objects := modifyBack objects
    (fun o => { o with mesh_poses := assignAt o.mesh_poses 0 glass_pose.pose })
  let objects := modifyBack objects (fun o => { o with mesh_poses := (modifyAt o.mesh_poses 0
    (fun p => { p with position := { p.position with z := (p.position.z
      + (computeMeshHeight getShapeExtents (o.meshes.getD 0 default) / 2 + 0.002)) } })) })
  Effect.getAttachedObjects ["bottle"] :: removal ++ [Effect.applyCollisionObjects objects]

/-! ## Observations on a sequence of effects -/

/-- The objects submitted one at a time (`applyCollisionObject`), in order. -/
def submittedObjects (trace : List Effect) : List CollisionObject :=
  trace.filterMap (fun e => match e with
    | Effect.applyCollisionObject obj => some obj
    | _ => none)

/-- The batches submitted (`applyCollisionObjects`), in order. -/
def submittedBatches (trace : List Effect) : List (List CollisionObject) :=
  trace.filterMap (fun e => match e with
    | Effect.applyCollisionObjects objs => some objs
    | _ => none)

/-- The attached objects submitted (`applyAttachedCollisionObject`), in order. -/
def attachedUpdates (trace : List Effect) : List AttachedCollisionObject :=
  trace.filterMap (fun e => match e with
    | Effect.applyAttachedCollisionObject obj => some obj
    | _ => none)

/-- The plans handed to the Motion Executor, in order. -/
def executedPlans (trace : List Effect) : List Plan :=
  trace.filterMap (fun e => match e with
    | Effect.execute plan => some plan
    | _ => none)

/-- The scene diffs applied to the Scene Store, in order. -/
def appliedDiffs (trace : List Effect) : List PlanningScene :=
  trace.filterMap (fun e => match e with
    | Effect.applyPlanningScene diff => some diff
    | _ => none)

/-- The Motion Executor and Scene Store calls of a trace, in order. -/
def serviceCalls (trace : List Effect) : List Effect :=
  trace.filter (fun e => match e with
    | Effect.execute _ => true
    | Effect.applyPlanningScene _ => true
    | _ => false)

/-- The calls of a trace without its log lines, in order. -/
def withoutLog (trace : List Effect) : List Effect :=
  trace.filter (fun e => match e with
    | Effect.info _ => false
    | Effect.error _ => false
    | _ => true)

/-! ## Vocabulary of the properties -/

/-- The identity rotation. -/
def Quaternion.identity : Quaternion := { x := 0, y := 0, z := 0, w := 1 }

/-- The squared norm of a quaternion; a unit quaternion has squared norm one. -/
def Quaternion.normSq (q : Quaternion) : ℚ :=
  q.x * q.x + q.y * q.y + q.z * q.z + q.w * q.w

/-- Whether the joint trajectory of a segment has points. -/
def hasPoints (s : SubTrajectory) : Bool :=
  !s.trajectory.joint_trajectory.points.isEmpty

/-- The plan handed to the Motion Executor for a segment (line 51). -/
def planOf (s : SubTrajectory) : Plan :=
  { trajectory_ := s.trajectory }

/-- The number of segments with points: the Motion Executor calls of a walk
over all of `segs`. -/
def executorCalls (segs : List SubTrajectory) : Nat :=
  (segs.filter hasPoints).length

/-- Segment `i` of `segs` is the first segment whose Motion Executor call
reports failure, when the calls are numbered from `n`: the segment has points,
every call for a segment before `i` succeeds, and the next call fails. -/
def FailsAtFrom (outcome : Nat → Bool) (n : Nat) (segs : List SubTrajectory) (i : Nat) : Prop :=
  (∃ s, segs.get? i = some s ∧ hasPoints s = true) ∧
  outcome (n + executorCalls (segs.take i)) = false ∧
  ∀ m, m < executorCalls (segs.take i) → outcome (n + m) = true

/-- Segment `i` of `segs` is the first segment whose Motion Executor call
reports failure. -/
def FailsAt (outcome : Nat → Bool) (segs : List SubTrajectory) (i : Nat) : Prop :=
  FailsAtFrom outcome 0 segs i

/-- Every Motion Executor call of a walk over all of `segs` reports success. -/
def AllSucceed (outcome : Nat → Bool) (segs : List SubTrajectory) : Prop :=
  ∀ m, m < executorCalls segs → outcome m = true

/-- The walk in which every execution succeeds: for each segment in order, its
execution when it has points, then its scene diff. -/
def fullWalk (segs : List SubTrajectory) : List Effect :=
  segs.flatMap (fun s =>
    (if hasPoints s then [Effect.execute (planOf s)] else [])
      ++ [Effect.applyPlanningScene s.scene_diff])

/-! ## Closed forms of what the code builds -/

/-- The table object that `setupTable` builds, field by field. -/
def tableObject (tabletop_pose : PoseStamped) : CollisionObject :=
  { header := tabletop_pose.header
    id := "table"
    primitives := [{ type := SolidPrimitive.BOX, dimensions := [0.5, 1.0, 0.1] }]
    primitive_poses :=
      [{ position :=
           { x := tabletop_pose.pose.position.x
             y := tabletop_pose.pose.position.y
             z := -0.15 - 0.05 }
         orientation :=
           { x := tabletop_pose.pose.orientation.x
             y := tabletop_pose.pose.orientation.y
             z := tabletop_pose.pose.orientation.z
             w := 1 } }]
    meshes := []
    mesh_poses := []
    operation := CollisionObject.ADD }

/-- The object that `setupObjects` builds for one resource, field by field. -/
def meshObject (createMeshFromResource : String → Mesh) (getShapeExtents : Mesh → ℚ × ℚ × ℚ)
    (id : String) (pose : PoseStamped) (resource : String) : CollisionObject :=
  { header := pose.header
    id := id
    primitives := []
    primitive_poses := []
    meshes := [createMeshFromResource resource]
    mesh_poses :=
      [{ position :=
           { x := pose.pose.position.x
             y := pose.pose.position.y
             z := pose.pose.position.z
               + (computeMeshHeight getShapeExtents (createMeshFromResource resource) / 2 + 0.002) }
         orientation := pose.pose.orientation }]
    operation := CollisionObject.ADD }

/-- The removal that `setupObjects` issues for the answer of the Scene Store. -/
def bottleRemoval (attached_objects : List (String × AttachedCollisionObject)) : List Effect :=
  match attached_objects.lookup "bottle" with
  | some a =>
    [Effect.applyAttachedCollisionObject
      { a with object := { a.object with operation := CollisionObject.REMOVE } }]
  | none => []

/-- The effects of `monitorSolution` before its loop (lines 31-36). -/
def preamble : List Effect :=
  [Effect.listenerShutdown,
   Effect.info "Received first solution. Executing.",
   Effect.info "waiting for confirmation",
   Effect.consoleRead]

/-- The effects of one loop iteration that reaches line 58. -/
def segmentEffects (s : SubTrajectory) : List Effect :=
  if hasPoints s then
    [Effect.info ("executing subtrajectory " ++ toString s.id),
     Effect.execute (planOf s),
     Effect.applyPlanningScene s.scene_diff]
  else
    [Effect.info "skipping empty trajectory", Effect.applyPlanningScene s.scene_diff]

/-- The effects of the loop iteration whose execution fails (lines 50-55). -/
def failEffects (s : SubTrajectory) : List Effect :=
  [Effect.info ("executing subtrajectory " ++ toString s.id),
   Effect.execute (planOf s),
   Effect.error "Execution failed! Aborting!",
   Effect.rosShutdown]

/-- The effects of `monitorSolution` after a loop that ran to its end. -/
def epilogue : List Effect :=
  [Effect.info "Executed successfully.", Effect.rosShutdown]

/-! ## Example data -/

/-- A segment with a one-point joint trajectory. -/
def movingSegment (id : Nat) (diff : String) : SubTrajectory :=
  { id := id
    trajectory := { joint_trajectory :=
      { joint_names := ["joint"], points := [{ positions := [1], time_from_start := 1 }] } }
    scene_diff := { name := diff, is_diff := true } }

/-- A segment with an empty joint trajectory. -/
def sceneOnlySegment (id : Nat) (diff : String) : SubTrajectory :=
  { id := id, scene_diff := { name := diff, is_diff := true } }

/-- A solution of three segments whose middle segment has no points. -/
def exampleSolution : Solution :=
  { sub_trajectory :=
      [movingSegment 0 "grasp", sceneOnlySegment 1 "attach", movingSegment 2 "pour"] }

/-- A freshly constructed listener. -/
def exampleHandler : ExecuteFirstSolution :=
  ExecuteFirstSolution.ctor "solution" "arm"

/-- The Motion Executor that succeeds at its first call and fails afterwards. -/
def failSecondCall (n : Nat) : Bool :=
  n == 0

/-! ## Scene initialisers: closed forms -/

theorem setupTable_eq (tabletop_pose : PoseStamped) :
    setupTable tabletop_pose = [Effect.applyCollisionObject (tableObject tabletop_pose)] :=
  rfl

theorem lookup_isSome_iff {α : Type} (m : List (String × α)) (key : String) :
    (m.lookup key).isSome ↔ ∃ a, (key, a) ∈ m := by
  induction m with
  | nil => simp
  | cons e rest ih =>
    obtain ⟨k, v⟩ := e
    by_cases hk : key = k
    · subst hk
      simp [List.lookup]
    · have hk2 : (key == k) = false := by simpa using hk
      simp [List.lookup, hk2, ih, hk]

theorem setupObjects_eq
    (getAttachedObjects : List String → List (String × AttachedCollisionObject))
    (createMeshFromResource : String → Mesh) (getShapeExtents : Mesh → ℚ × ℚ × ℚ)
    (bottle_pose glass_pose : PoseStamped) (bottle_mesh glass_mesh : String) :
    setupObjects getAttachedObjects createMeshFromResource getShapeExtents
        bottle_pose glass_pose bottle_mesh glass_mesh
      = Effect.getAttachedObjects ["bottle"]
          :: bottleRemoval (getAttachedObjects ["bottle"])
          ++ [Effect.applyCollisionObjects
                [meshObject createMeshFromResource getShapeExtents "bottle" bottle_pose bottle_mesh,
                 meshObject createMeshFromResource getShapeExtents "glass" glass_pose glass_mesh]] := by
  have hrem : (if mapCount (getAttachedObjects ["bottle"]) "bottle" > 0 then
        [Effect.applyAttachedCollisionObject
          { mapAt (getAttachedObjects ["bottle"]) "bottle" with
            object := { (mapAt (getAttachedObjects ["bottle"]) "bottle").object with
              operation := CollisionObject.REMOVE } }]
      else []) = bottleRemoval (getAttachedObjects ["bottle"]) := by
    unfold bottleRemoval mapCount mapAt
    cases h : (getAttachedObjects ["bottle"]).lookup "bottle" <;> simp
  unfold setupObjects
  simp only [hrem]
  simp [modifyBack, collisionObjectFromResource, resize, assignAt, modifyAt, meshObject]

/-! ## Scene initialisers: properties -/

/-- C8: for every tabletop pose, `setupTable` makes exactly one Scene Store
call, the submission of one collision object, which has id "table", operation
ADD, the header of the input pose, exactly one primitive, of type BOX with the
three dimensions X = 0.5, Y = 1.0 and Z = 0.1, exactly one primitive pose, and
no mesh. -/
theorem setupTable_submits_one_box (tabletop_pose : PoseStamped) :
    ∃ table : CollisionObject,
      setupTable tabletop_pose = [Effect.applyCollisionObject table] ∧
      submittedObjects (setupTable tabletop_pose) = [table] ∧
      submittedBatches (setupTable tabletop_pose) = [] ∧
      table.id = "table" ∧
      table.operation = CollisionObject.ADD ∧
      table.header = tabletop_pose.header ∧
      table.primitives.length = 1 ∧
      table.primitives.map (fun s => s.type) = [SolidPrimitive.BOX] ∧
      table.primitives.map (fun s => s.dimensions.length) = [3] ∧
      table.primitives.map (fun s => s.dimensions.get? SolidPrimitive.BOX_X) = [some 0.5] ∧
      table.primitives.map (fun s => s.dimensions.get? SolidPrimitive.BOX_Y) = [some 1.0] ∧
      table.primitives.map (fun s => s.dimensions.get? SolidPrimitive.BOX_Z) = [some 0.1] ∧
      table.primitive_poses.length = 1 ∧
      table.meshes = [] ∧ table.mesh_poses = [] := by
  refine ⟨tableObject tabletop_pose, setupTable_eq tabletop_pose, ?_⟩
  rw [setupTable_eq]
  simp [submittedObjects, submittedBatches, tableObject, SolidPrimitive.BOX_X,
    SolidPrimitive.BOX_Y, SolidPrimitive.BOX_Z]

/-- C3 (as stated, refuted): for the tabletop pose at z = 1.0, `setupTable`
submits a table whose box-centre pose has z = -0.2, which is neither
1.0 - 0.15 - 0.05 nor 0.8. -/
theorem setupTable_z_counterexample :
    ∃ (table : CollisionObject) (pose : Pose),
      setupTable { pose := { position := { x := 0, y := 0, z := 1.0 } } }
        = [Effect.applyCollisionObject table] ∧
      table.primitive_poses = [pose] ∧
      pose.position.z = -0.2 ∧
      pose.position.z ≠ (1.0 : ℚ) - 0.15 - 0.05 ∧
      pose.position.z ≠ 0.8 := by
  refine ⟨_, _, setupTable_eq _, rfl, ?_, ?_, ?_⟩ <;> norm_num

/-- C3 (amended): for every tabletop pose, the table object submitted by
`setupTable` has its box-centre pose z equal to the constant -0.15 - 0.05, that
is -0.2, whatever the z of the tabletop pose. -/
theorem setupTable_z_fixed (tabletop_pose : PoseStamped) :
    ∃ (table : CollisionObject) (pose : Pose),
      setupTable tabletop_pose = [Effect.applyCollisionObject table] ∧
      table.primitive_poses = [pose] ∧
      pose.position.z = -0.15 - 0.05 ∧
      pose.position.z = -0.2 := by
  refine ⟨_, _, setupTable_eq _, rfl, rfl, ?_⟩
  norm_num

/-- C10: for every tabletop pose, the primitive pose of the table submitted by
`setupTable` keeps position x and y and orientation x, y and z of the input
pose and has orientation w = 1; so the submitted orientation is the identity
exactly when the input orientation has x = y = z = 0, and it is a unit
quaternion exactly in that case. -/
theorem setupTable_pose_frame (tabletop_pose : PoseStamped) :
    ∃ (table : CollisionObject) (pose : Pose),
      setupTable tabletop_pose = [Effect.applyCollisionObject table] ∧
      table.primitive_poses = [pose] ∧
      pose.position.x = tabletop_pose.pose.position.x ∧
      pose.position.y = tabletop_pose.pose.position.y ∧
      pose.orientation.x = tabletop_pose.pose.orientation.x ∧
      pose.orientation.y = tabletop_pose.pose.orientation.y ∧
      pose.orientation.z = tabletop_pose.pose.orientation.z ∧
      pose.orientation.w = 1 ∧
      (pose.orientation = Quaternion.identity ↔
        (tabletop_pose.pose.orientation.x = 0 ∧ tabletop_pose.pose.orientation.y = 0 ∧
          tabletop_pose.pose.orientation.z = 0)) ∧
      (pose.orientation.normSq = 1 ↔
        (tabletop_pose.pose.orientation.x = 0 ∧ tabletop_pose.pose.orientation.y = 0 ∧
          tabletop_pose.pose.orientation.z = 0)) := by
  refine ⟨_, _, setupTable_eq _, rfl, rfl, rfl, rfl, rfl, rfl, rfl, ?_, ?_⟩
  · simp [Quaternion.identity, Quaternion.mk.injEq]
  · simp only [Quaternion.normSq]
    constructor
    · intro h
      have hx := mul_self_nonneg tabletop_pose.pose.orientation.x
      have hy := mul_self_nonneg tabletop_pose.pose.orientation.y
      have hz := mul_self_nonneg tabletop_pose.pose.orientation.z
      refine ⟨?_, ?_, ?_⟩ <;> apply mul_self_eq_zero.mp <;> linarith
    · rintro ⟨hx, hy, hz⟩
      rw [hx, hy, hz]
      norm_num

/-- C5: for every answer of the Scene Store to the query for "bottle",
`setupObjects` first asks for the attached objects named "bottle", then submits
the reported attached object with operation REMOVE when the store reports one
under "bottle" and submits no attached object otherwise, and last makes one
batch submission of exactly two collision objects, with ids "bottle" then
"glass", each with operation ADD and the header of its own input pose; it
submits no object one at a time. -/
theorem setupObjects_calls
    (getAttachedObjects : List String → List (String × AttachedCollisionObject))
    (createMeshFromResource : String → Mesh) (getShapeExtents : Mesh → ℚ × ℚ × ℚ)
    (bottle_pose glass_pose : PoseStamped) (bottle_mesh glass_mesh : String) :
    ∃ (bottle glass : CollisionObject) (removal : List AttachedCollisionObject),
      setupObjects getAttachedObjects createMeshFromResource getShapeExtents
          bottle_pose glass_pose bottle_mesh glass_mesh
        = Effect.getAttachedObjects ["bottle"]
            :: removal.map Effect.applyAttachedCollisionObject
            ++ [Effect.applyCollisionObjects [bottle, glass]] ∧
      removal = ((getAttachedObjects ["bottle"]).lookup "bottle").toList.map
        (fun a => { a with object := { a.object with operation := CollisionObject.REMOVE } }) ∧
      (removal.length = 1 ↔ ∃ a, ("bottle", a) ∈ getAttachedObjects ["bottle"]) ∧
      (removal = [] ↔ ¬ ∃ a, ("bottle", a) ∈ getAttachedObjects ["bottle"]) ∧
      attachedUpdates (setupObjects getAttachedObjects createMeshFromResource getShapeExtents
        bottle_pose glass_pose bottle_mesh glass_mesh) = removal ∧
      submittedBatches (setupObjects getAttachedObjects createMeshFromResource getShapeExtents
        bottle_pose glass_pose bottle_mesh glass_mesh) = [[bottle, glass]] ∧
      submittedObjects (setupObjects getAttachedObjects createMeshFromResource getShapeExtents
        bottle_pose glass_pose bottle_mesh glass_mesh) = [] ∧
      bottle.id = "bottle" ∧ bottle.operation = CollisionObject.ADD ∧
      bottle.header = bottle_pose.header ∧
      glass.id = "glass" ∧ glass.operation = CollisionObject.ADD ∧
      glass.header = glass_pose.header := by
  refine ⟨meshObject createMeshFromResource getShapeExtents "bottle" bottle_pose bottle_mesh,
    meshObject createMeshFromResource getShapeExtents "glass" glass_pose glass_mesh,
    _, ?_, rfl, ?_, ?_, ?_, ?_, ?_, rfl, rfl, rfl, rfl, rfl, rfl⟩
  · rw [setupObjects_eq]
    unfold bottleRemoval
    cases (getAttachedObjects ["bottle"]).lookup "bottle" <;> rfl
  · rw [← lookup_isSome_iff]
    cases (getAttachedObjects ["bottle"]).lookup "bottle" <;> simp
  · rw [← lookup_isSome_iff]
    cases (getAttachedObjects ["bottle"]).lookup "bottle" <;> simp
  · rw [setupObjects_eq]
    unfold bottleRemoval
    cases (getAttachedObjects ["bottle"]).lookup "bottle" <;> simp [attachedUpdates]
  · rw [setupObjects_eq]
    unfold bottleRemoval
    cases (getAttachedObjects ["bottle"]).lookup "bottle" <;> simp [submittedBatches]
  · rw [setupObjects_eq]
    unfold bottleRemoval
    cases (getAttachedObjects ["bottle"]).lookup "bottle" <;> simp [submittedObjects]

/-! ## Playback: the loop -/

theorem monitorLoop_skip (outcome : Nat → Bool) (n : Nat) (s : SubTrajectory)
    (rest : List SubTrajectory) (h : hasPoints s = false) :
    monitorLoop outcome n (s :: rest)
      = (segmentEffects s ++ (monitorLoop outcome n rest).1, (monitorLoop outcome n rest).2) := by
  have h2 : s.trajectory.joint_trajectory.points.isEmpty = true := by
    simpa [hasPoints] using h
  simp [monitorLoop, segmentEffects, h, h2]

theorem monitorLoop_fail (outcome : Nat → Bool) (n : Nat) (s : SubTrajectory)
    (rest : List SubTrajectory) (h : hasPoints s = true) (ho : outcome n = false) :
    monitorLoop outcome n (s :: rest) = (failEffects s, false) := by
  have h2 : s.trajectory.joint_trajectory.points.isEmpty = false := by
    simpa [hasPoints] using h
  simp [monitorLoop, failEffects, planOf, h2, ho]

theorem monitorLoop_ok (outcome : Nat → Bool) (n : Nat) (s : SubTrajectory)
    (rest : List SubTrajectory) (h : hasPoints s = true) (ho : outcome n = true) :
    monitorLoop outcome n (s :: rest)
      = (segmentEffects s ++ (monitorLoop outcome (n + 1) rest).1,
          (monitorLoop outcome (n + 1) rest).2) := by
  have h2 : s.trajectory.joint_trajectory.points.isEmpty = false := by
    simpa [hasPoints] using h
  simp [monitorLoop, segmentEffects, planOf, h, h2, ho]

theorem executorCalls_cons (s : SubTrajectory) (rest : List SubTrajectory) :
    executorCalls (s :: rest) = (if hasPoints s then 1 else 0) + executorCalls rest := by
  unfold executorCalls
  by_cases h : hasPoints s = true
  · simp [List.filter, h]; omega
  · simp [List.filter, h]

/-- When every call of the walk succeeds, the loop runs every segment. -/
theorem monitorLoop_success (outcome : Nat → Bool) (segs : List SubTrajectory) :
    ∀ n, (∀ m, m < executorCalls segs → outcome (n + m) = true) →
      monitorLoop outcome n segs = (segs.flatMap segmentEffects, true) := by
  induction segs with
  | nil => intro n _; rfl
  | cons s rest ih =>
    intro n hall
    rw [executorCalls_cons] at hall
    by_cases h : hasPoints s = true
    · simp only [h, if_true] at hall
      have h0 : outcome n = true := by simpa using hall 0 (by omega)
      have hrest : ∀ m, m < executorCalls rest → outcome (n + 1 + m) = true := by
        intro m hm
        have := hall (1 + m) (by omega)
        rwa [← Nat.add_assoc] at this
      rw [monitorLoop_ok outcome n s rest h h0, ih (n + 1) hrest]
      simp [List.flatMap_cons]
    · have h' : hasPoints s = false := by simpa using h
      simp only [h', Bool.false_eq_true, if_false, Nat.zero_add] at hall
      rw [monitorLoop_skip outcome n s rest h', ih n hall]
      simp [List.flatMap_cons]

/-- When segment `i` is the first whose call fails, the loop runs the segments
before `i`, calls the Motion Executor for segment `i`, and returns. -/
theorem monitorLoop_failure (outcome : Nat → Bool) (segs : List SubTrajectory) :
    ∀ n i, FailsAtFrom outcome n segs i →
      ∃ s, segs.get? i = some s ∧ hasPoints s = true ∧
        monitorLoop outcome n segs
          = ((segs.take i).flatMap segmentEffects ++ failEffects s, false) := by
  induction segs with
  | nil =>
    rintro n i ⟨⟨s, hs, _⟩, _⟩
    simp at hs
  | cons s rest ih =>
    rintro n i ⟨⟨t, ht, htp⟩, hfail, hbefore⟩
    cases i with
    | zero =>
      simp only [List.get?_cons_zero, Option.some.injEq] at ht
      subst ht
      refine ⟨s, rfl, htp, ?_⟩
      have ho : outcome n = false := by simpa [executorCalls] using hfail
      rw [monitorLoop_fail outcome n s rest htp ho]
      simp
    | succ j =>
      simp only [List.get?_cons_succ] at ht
      simp only [List.take_succ_cons, executorCalls_cons] at hfail hbefore
      by_cases h : hasPoints s = true
      · simp only [h, if_true] at hfail hbefore
        have h0 : outcome n = true := by simpa using hbefore 0 (by omega)
        have hF : FailsAtFrom outcome (n + 1) rest j := by
          refine ⟨⟨t, ht, htp⟩, ?_, ?_⟩
          · rwa [Nat.add_assoc]
          · intro m hm
            have := hbefore (1 + m) (by omega)
            rwa [← Nat.add_assoc] at this
        obtain ⟨u, hu, hup, hrun⟩ := ih (n + 1) j hF
        refine ⟨u, by simpa using hu, hup, ?_⟩
        rw [monitorLoop_ok outcome n s rest h h0, hrun]
        simp [List.flatMap_cons]
      · have h' : hasPoints s = false := by simpa using h
        simp only [h', Bool.false_eq_true, if_false, Nat.zero_add] at hfail hbefore
        have hF : FailsAtFrom outcome n rest j := ⟨⟨t, ht, htp⟩, hfail, hbefore⟩
        obtain ⟨u, hu, hup, hrun⟩ := ih n j hF
        refine ⟨u, by simpa using hu, hup, ?_⟩
        rw [monitorLoop_skip outcome n s rest h', hrun]
        simp [List.flatMap_cons]

/-- Every walk either succeeds at every call or has a first failing segment. -/
theorem succeed_or_fail (outcome : Nat → Bool) (segs : List SubTrajectory) :
    ∀ n, (∀ m, m < executorCalls segs → outcome (n + m) = true) ∨
      ∃ i, FailsAtFrom outcome n segs i := by
  induction segs with
  | nil =>
    intro n
    left
    intro m hm
    simp [executorCalls] at hm
  | cons s rest ih =>
    intro n
    by_cases h : hasPoints s = true
    · by_cases ho : outcome n = true
      · rcases ih (n + 1) with hall | ⟨j, ⟨t, ht, htp⟩, hfail, hbefore⟩
        · left
          intro m hm
          rw [executorCalls_cons] at hm
          simp only [h, if_true] at hm
          cases m with
          | zero => simpa using ho
          | succ k =>
            have := hall k (by omega)
            rw [Nat.add_assoc, Nat.add_comm 1 k] at this
            exact this
        · right
          refine ⟨j + 1, ⟨t, by simpa using ht, htp⟩, ?_, ?_⟩
          · simp only [List.take_succ_cons, executorCalls_cons, h, if_true]
            rwa [← Nat.add_assoc]
          · intro m hm
            simp only [List.take_succ_cons, executorCalls_cons, h, if_true] at hm
            cases m with
            | zero => simpa using ho
            | succ k =>
              have := hbefore k (by omega)
              rw [Nat.add_assoc, Nat.add_comm 1 k] at this
              exact this
      · right
        refine ⟨0, ⟨s, rfl, h⟩, ?_, ?_⟩
        · simpa [executorCalls] using ho
        · intro m hm
          simp [executorCalls] at hm
    · have h' : hasPoints s = false := by simpa using h
      rcases ih n with hall | ⟨j, ⟨t, ht, htp⟩, hfail, hbefore⟩
      · left
        intro m hm
        rw [executorCalls_cons] at hm
        simp only [h', Bool.false_eq_true, if_false, Nat.zero_add] at hm
        exact hall m hm
      · right
        refine ⟨j + 1, ⟨t, by simpa using ht, htp⟩, ?_, ?_⟩
        · simpa only [List.take_succ_cons, executorCalls_cons, h', Bool.false_eq_true, if_false,
            Nat.zero_add] using hfail
        · intro m hm
          simp only [List.take_succ_cons, executorCalls_cons, h', Bool.false_eq_true, if_false,
            Nat.zero_add] at hm
          exact hbefore m hm

/-! ## Playback: the shape of every run -/

theorem monitorSolution_success (self : ExecuteFirstSolution) (outcome : Nat → Bool)
    (solution : Solution) (hall : AllSucceed outcome solution.sub_trajectory) :
    (monitorSolution self outcome solution).2
      = preamble ++ solution.sub_trajectory.flatMap segmentEffects ++ epilogue := by
  have h := monitorLoop_success outcome solution.sub_trajectory 0 (by simpa using hall)
  simp [monitorSolution, h, preamble, epilogue]

theorem monitorSolution_failure (self : ExecuteFirstSolution) (outcome : Nat → Bool)
    (solution : Solution) (i : Nat) (hfail : FailsAt outcome solution.sub_trajectory i) :
    ∃ s, solution.sub_trajectory.get? i = some s ∧ hasPoints s = true ∧
      (monitorSolution self outcome solution).2
        = preamble ++ (solution.sub_trajectory.take i).flatMap segmentEffects ++ failEffects s := by
  obtain ⟨s, hs, hsp, h⟩ := monitorLoop_failure outcome solution.sub_trajectory 0 i hfail
  exact ⟨s, hs, hsp, by simp [monitorSolution, h, preamble]⟩

theorem monitorSolution_cases (self : ExecuteFirstSolution) (outcome : Nat → Bool)
    (solution : Solution) :
    (AllSucceed outcome solution.sub_trajectory ∧
        (monitorSolution self outcome solution).2
          = preamble ++ solution.sub_trajectory.flatMap segmentEffects ++ epilogue) ∨
      (∃ i s, FailsAt outcome solution.sub_trajectory i ∧
        solution.sub_trajectory.get? i = some s ∧ hasPoints s = true ∧
        (monitorSolution self outcome solution).2
          = preamble ++ (solution.sub_trajectory.take i).flatMap segmentEffects
              ++ failEffects s) := by
  rcases succeed_or_fail outcome solution.sub_trajectory 0 with hall | ⟨i, hfail⟩
  · have hall2 : AllSucceed outcome solution.sub_trajectory := by
      intro m hm
      simpa using hall m hm
    exact Or.inl ⟨hall2, monitorSolution_success self outcome solution hall2⟩
  · obtain ⟨s, hs, hsp, hrun⟩ := monitorSolution_failure self outcome solution i hfail
    exact Or.inr ⟨i, s, hfail, hs, hsp, hrun⟩

/-- The loop iterations that reach line 58 only log, execute and apply. -/
theorem segments_effect_kinds (segs : List SubTrajectory) :
    ∀ e ∈ segs.flatMap segmentEffects,
      (∃ m, e = Effect.info m) ∨ (∃ p, e = Effect.execute p) ∨
        (∃ d, e = Effect.applyPlanningScene d) := by
  intro e he
  rw [List.mem_flatMap] at he
  obtain ⟨s, _, hes⟩ := he
  unfold segmentEffects at hes
  by_cases h : hasPoints s = true
  · simp only [h, if_true, List.mem_cons, List.mem_singleton, List.not_mem_nil, or_false] at hes
    rcases hes with h1 | h1 | h1
    · exact Or.inl ⟨_, h1⟩
    · exact Or.inr (Or.inl ⟨_, h1⟩)
    · exact Or.inr (Or.inr ⟨_, h1⟩)
  · have h2 : hasPoints s = false := by simpa using h
    simp only [h2, Bool.false_eq_true, if_false, List.mem_cons, List.mem_singleton,
      List.not_mem_nil, or_false] at hes
    rcases hes with h1 | h1
    · exact Or.inl ⟨_, h1⟩
    · exact Or.inr (Or.inr ⟨_, h1⟩)

theorem rosShutdown_not_mem_segments (segs : List SubTrajectory) :
    Effect.rosShutdown ∉ segs.flatMap segmentEffects := by
  intro h
  rcases segments_effect_kinds segs _ h with ⟨_, h1⟩ | ⟨_, h1⟩ | ⟨_, h1⟩ <;> cases h1

theorem listenerShutdown_not_mem_segments (segs : List SubTrajectory) :
    Effect.listenerShutdown ∉ segs.flatMap segmentEffects := by
  intro h
  rcases segments_effect_kinds segs _ h with ⟨_, h1⟩ | ⟨_, h1⟩ | ⟨_, h1⟩ <;> cases h1

theorem consoleRead_not_mem_segments (segs : List SubTrajectory) :
    Effect.consoleRead ∉ segs.flatMap segmentEffects := by
  intro h
  rcases segments_effect_kinds segs _ h with ⟨_, h1⟩ | ⟨_, h1⟩ | ⟨_, h1⟩ <;> cases h1

/-! ## Playback: observations -/

theorem executedPlans_append (a b : List Effect) :
    executedPlans (a ++ b) = executedPlans a ++ executedPlans b := by
  simp [executedPlans]

theorem appliedDiffs_append (a b : List Effect) :
    appliedDiffs (a ++ b) = appliedDiffs a ++ appliedDiffs b := by
  simp [appliedDiffs]

theorem serviceCalls_append (a b : List Effect) :
    serviceCalls (a ++ b) = serviceCalls a ++ serviceCalls b := by
  simp [serviceCalls]

theorem withoutLog_append (a b : List Effect) :
    withoutLog (a ++ b) = withoutLog a ++ withoutLog b := by
  simp [withoutLog]

theorem executedPlans_segments (segs : List SubTrajectory) :
    executedPlans (segs.flatMap segmentEffects) = (segs.filter hasPoints).map planOf := by
  induction segs with
  | nil => rfl
  | cons s rest ih =>
    rw [List.flatMap_cons, executedPlans_append, ih]
    by_cases h : hasPoints s = true
    · simp [segmentEffects, executedPlans, h]
    · simp [segmentEffects, executedPlans, h]

theorem appliedDiffs_segments (segs : List SubTrajectory) :
    appliedDiffs (segs.flatMap segmentEffects) = segs.map (fun s => s.scene_diff) := by
  induction segs with
  | nil => rfl
  | cons s rest ih =>
    rw [List.flatMap_cons, appliedDiffs_append, ih]
    by_cases h : hasPoints s = true
    · simp [segmentEffects, appliedDiffs, h]
    · simp [segmentEffects, appliedDiffs, h]

theorem serviceCalls_segments (segs : List SubTrajectory) :
    serviceCalls (segs.flatMap segmentEffects) = fullWalk segs := by
  induction segs with
  | nil => rfl
  | cons s rest ih =>
    rw [List.flatMap_cons, serviceCalls_append, ih]
    by_cases h : hasPoints s = true
    · simp [segmentEffects, serviceCalls, fullWalk, h]
    · simp [segmentEffects, serviceCalls, fullWalk, h]

theorem withoutLog_segments (segs : List SubTrajectory) :
    withoutLog (segs.flatMap segmentEffects) = fullWalk segs := by
  induction segs with
  | nil => rfl
  | cons s rest ih =>
    rw [List.flatMap_cons, withoutLog_append, ih]
    by_cases h : hasPoints s = true
    · simp [segmentEffects, withoutLog, fullWalk, h]
    · simp [segmentEffects, withoutLog, fullWalk, h]

theorem fullWalk_append (a b : List SubTrajectory) :
    fullWalk (a ++ b) = fullWalk a ++ fullWalk b := by
  simp [fullWalk]

theorem take_succ_of_get (segs : List SubTrajectory) (i : Nat) (s : SubTrajectory)
    (hs : segs.get? i = some s) : segs.take (i + 1) = segs.take i ++ [s] := by
  rw [List.take_succ]
  simp [List.get?_eq_getElem?] at hs
  simp [hs]

/-- When exactly segment `k` has no points, the segments with points are all
the others. -/
theorem filter_hasPoints_eq_eraseIdx (segs : List SubTrajectory) :
    ∀ k, k < segs.length →
      (∀ j s, segs.get? j = some s → (s.trajectory.joint_trajectory.points = [] ↔ j = k)) →
      segs.filter hasPoints = segs.eraseIdx k := by
  induction segs with
  | nil => intro k hk; simp at hk
  | cons s rest ih =>
    intro k hk hempty
    cases k with
    | zero =>
      have hs : hasPoints s = false := by
        have := (hempty 0 s rfl).mpr rfl
        simp [hasPoints, this]
      have hrest : ∀ t ∈ rest, hasPoints t = true := by
        intro t ht
        obtain ⟨j, hj⟩ := List.get?_of_mem ht
        have hne : ¬ t.trajectory.joint_trajectory.points = [] := by
          intro hnil
          have := (hempty (j + 1) t (by simpa using hj)).mp hnil
          omega
        simpa [hasPoints] using hne
      simp [List.filter, hs, List.filter_eq_self.mpr hrest]
    | succ k' =>
      have hs : hasPoints s = true := by
        have hne : ¬ s.trajectory.joint_trajectory.points = [] := by
          intro hnil
          have := (hempty 0 s rfl).mp hnil
          omega
        simpa [hasPoints] using hne
      have hrec := ih k' (by simpa using hk) (by
        intro j t hj
        have := hempty (j + 1) t (by simpa using hj)
        rw [this]
        omega)
      simp [List.filter, hs, hrec]

theorem deliver_closed (node : Node) (msgs : List ((Nat → Bool) × Solution))
    (h : node.handler.listener_ = false) : msgs.foldl deliver node = node := by
  induction msgs with
  | nil => rfl
  | cons m rest ih =>
    have hd : deliver node m = node := by simp [deliver, h]
    rw [List.foldl_cons, hd, ih]

theorem failSecondCall_failsAt : FailsAt failSecondCall exampleSolution.sub_trajectory 2 := by
  refine ⟨⟨movingSegment 2 "pour", rfl, rfl⟩, rfl, ?_⟩
  intro m hm
  have h1 : executorCalls (List.take 2 exampleSolution.sub_trajectory) = 1 := rfl
  rw [h1] at hm
  have h0 : m = 0 := by omega
  subst h0
  rfl

/-! ## Playback: two runs -/

/-- The run over the example solution when every execution succeeds. -/
theorem monitorSolution_example_success :
    (monitorSolution exampleHandler (fun _ => true) exampleSolution).2
      = [Effect.listenerShutdown,
         Effect.info "Received first solution. Executing.",
         Effect.info "waiting for confirmation",
         Effect.consoleRead,
         Effect.info "executing subtrajectory 0",
         Effect.execute { trajectory_ := (movingSegment 0 "grasp").trajectory },
         Effect.applyPlanningScene { name := "grasp", is_diff := true },
         Effect.info "skipping empty trajectory",
         Effect.applyPlanningScene { name := "attach", is_diff := true },
         Effect.info "executing subtrajectory 2",
         Effect.execute { trajectory_ := (movingSegment 2 "pour").trajectory },
         Effect.applyPlanningScene { name := "pour", is_diff := true },
         Effect.info "Executed successfully.",
         Effect.rosShutdown] := by
  simp [monitorSolution, monitorLoop, exampleSolution, movingSegment, sceneOnlySegment]
  decide

/-- The run over the example solution when the second execution fails. -/
theorem monitorSolution_example_failure :
    (monitorSolution exampleHandler failSecondCall exampleSolution).2
      = [Effect.listenerShutdown,
         Effect.info "Received first solution. Executing.",
         Effect.info "waiting for confirmation",
         Effect.consoleRead,
         Effect.info "executing subtrajectory 0",
         Effect.execute { trajectory_ := (movingSegment 0 "grasp").trajectory },
         Effect.applyPlanningScene { name := "grasp", is_diff := true },
         Effect.info "skipping empty trajectory",
         Effect.applyPlanningScene { name := "attach", is_diff := true },
         Effect.info "executing subtrajectory 2",
         Effect.execute { trajectory_ := (movingSegment 2 "pour").trajectory },
         Effect.error "Execution failed! Aborting!",
         Effect.rosShutdown] := by
  simp [monitorSolution, monitorLoop, exampleSolution, movingSegment, sceneOnlySegment,
    failSecondCall]
  decide

/-! ## Playback: properties -/

/-- C1: for every solution with N segments in which exactly segment `k` has a
joint trajectory with no points, when every Motion Executor call reports
success, `monitorSolution` hands the Motion Executor the plans of the segments
other than `k`, in segment order, which are N - 1 calls, none of them for
segment `k`, and applies the scene diffs of all N segments in segment order. -/
theorem monitorSolution_one_empty_segment (self : ExecuteFirstSolution) (outcome : Nat → Bool)
    (solution : Solution) (k : Nat)
    (hk : k < solution.sub_trajectory.length)
    (hempty : ∀ j s, solution.sub_trajectory.get? j = some s →
      (s.trajectory.joint_trajectory.points = [] ↔ j = k))
    (hok : ∀ n, n + 1 < solution.sub_trajectory.length → outcome n = true) :
    executedPlans (monitorSolution self outcome solution).2
        = (solution.sub_trajectory.eraseIdx k).map (fun s => { trajectory_ := s.trajectory }) ∧
      (executedPlans (monitorSolution self outcome solution).2).length
        = solution.sub_trajectory.length - 1 ∧
      (∀ s, solution.sub_trajectory.get? k = some s →
        ({ trajectory_ := s.trajectory } : Plan)
          ∉ executedPlans (monitorSolution self outcome solution).2) ∧
      appliedDiffs (monitorSolution self outcome solution).2
        = solution.sub_trajectory.map (fun s => s.scene_diff) ∧
      (appliedDiffs (monitorSolution self outcome solution).2).length
        = solution.sub_trajectory.length := by
  have hfilter := filter_hasPoints_eq_eraseIdx solution.sub_trajectory k hk hempty
  have hcalls : executorCalls solution.sub_trajectory = solution.sub_trajectory.length - 1 := by
    unfold executorCalls
    rw [hfilter, List.length_eraseIdx, if_pos hk]
  have hall : AllSucceed outcome solution.sub_trajectory := by
    intro m hm
    rw [hcalls] at hm
    exact hok m (by omega)
  have hplans : executedPlans (monitorSolution self outcome solution).2
      = (solution.sub_trajectory.filter hasPoints).map planOf := by
    rw [monitorSolution_success self outcome solution hall, executedPlans_append,
      executedPlans_append, executedPlans_segments]
    simp [executedPlans, preamble, epilogue]
  have hdiffs : appliedDiffs (monitorSolution self outcome solution).2
      = solution.sub_trajectory.map (fun s => s.scene_diff) := by
    rw [monitorSolution_success self outcome solution hall, appliedDiffs_append,
      appliedDiffs_append, appliedDiffs_segments]
    simp [appliedDiffs, preamble, epilogue]
  refine ⟨?_, ?_, ?_, hdiffs, ?_⟩
  · rw [hplans, hfilter]
    rfl
  · rw [hplans, List.length_map]
    exact hcalls
  · intro s hs hmem
    rw [hplans, List.mem_map] at hmem
    obtain ⟨t, ht, heq⟩ := hmem
    have htp : hasPoints t = true := (List.mem_filter.mp ht).2
    have hsnil : s.trajectory.joint_trajectory.points = [] := (hempty k s hs).mpr rfl
    have htraj : t.trajectory = s.trajectory := by
      simpa [planOf] using heq
    simp [hasPoints, htraj, hsnil] at htp
  · rw [hdiffs, List.length_map]

/-- C1 at a concrete input: three segments, the middle one without points and
every execution successful, give two Motion Executor calls and three diffs. -/
theorem monitorSolution_one_empty_segment_witness :
    executedPlans (monitorSolution exampleHandler (fun _ => true) exampleSolution).2
        = (exampleSolution.sub_trajectory.eraseIdx 1).map
            (fun s => { trajectory_ := s.trajectory }) ∧
      (executedPlans (monitorSolution exampleHandler (fun _ => true) exampleSolution).2).length
        = exampleSolution.sub_trajectory.length - 1 ∧
      (∀ s, exampleSolution.sub_trajectory.get? 1 = some s →
        ({ trajectory_ := s.trajectory } : Plan)
          ∉ executedPlans (monitorSolution exampleHandler (fun _ => true) exampleSolution).2) ∧
      appliedDiffs (monitorSolution exampleHandler (fun _ => true) exampleSolution).2
        = exampleSolution.sub_trajectory.map (fun s => s.scene_diff) ∧
      (appliedDiffs (monitorSolution exampleHandler (fun _ => true) exampleSolution).2).length
        = exampleSolution.sub_trajectory.length :=
  monitorSolution_one_empty_segment exampleHandler (fun _ => true) exampleSolution 1
    (by decide)
    (by
      intro j s hj
      rcases j with _ | _ | _ | j
      · simp [exampleSolution] at hj
        subst hj
        simp [movingSegment]
      · simp [exampleSolution] at hj
        subst hj
        simp [sceneOnlySegment]
      · simp [exampleSolution] at hj
        subst hj
        simp [movingSegment]
      · simp [exampleSolution] at hj)
    (by intro n _; rfl)

/-- C2: for every solution and every index `i` such that segment `i` is the
first segment whose Motion Executor call reports failure, `monitorSolution`
calls the Motion Executor only for the segments with points up to and with
`i`, applies only the scene diffs of the segments before `i`, makes the failed
call its last Motion Executor or Scene Store call, and does the same whatever
segments follow `i`. -/
theorem monitorSolution_stops_at_failure (self : ExecuteFirstSolution) (outcome : Nat → Bool)
    (solution : Solution) (i : Nat) (hfail : FailsAt outcome solution.sub_trajectory i) :
    executedPlans (monitorSolution self outcome solution).2
        = ((solution.sub_trajectory.take (i + 1)).filter hasPoints).map
            (fun s => { trajectory_ := s.trajectory }) ∧
      appliedDiffs (monitorSolution self outcome solution).2
        = (solution.sub_trajectory.take i).map (fun s => s.scene_diff) ∧
      (∃ s, solution.sub_trajectory.get? i = some s ∧
        serviceCalls (monitorSolution self outcome solution).2
          = fullWalk (solution.sub_trajectory.take i)
              ++ [Effect.execute { trajectory_ := s.trajectory }]) ∧
      (∀ tail : List SubTrajectory,
        (monitorSolution self outcome
            { sub_trajectory := solution.sub_trajectory.take (i + 1) ++ tail }).2
          = (monitorSolution self outcome solution).2) := by
  obtain ⟨s, hs, hsp, hrun⟩ := monitorSolution_failure self outcome solution i hfail
  have htake := take_succ_of_get solution.sub_trajectory i s hs
  refine ⟨?_, ?_, ⟨s, hs, ?_⟩, ?_⟩
  · rw [hrun, executedPlans_append, executedPlans_append, executedPlans_segments, htake]
    simp [executedPlans, preamble, failEffects, hsp, planOf]
  · rw [hrun, appliedDiffs_append, appliedDiffs_append, appliedDiffs_segments]
    simp [appliedDiffs, preamble, failEffects]
  · rw [hrun, serviceCalls_append, serviceCalls_append, serviceCalls_segments]
    simp [serviceCalls, preamble, failEffects, planOf]
  · intro tail
    have hlen : i < solution.sub_trajectory.length := by
      have := List.get?_eq_some.mp hs
      exact this.1
    have hpre : (solution.sub_trajectory.take (i + 1) ++ tail).take i
        = solution.sub_trajectory.take i := by
      rw [List.take_append_of_le_length (by simp; omega), List.take_take]
      congr 1
      omega
    have hget : (solution.sub_trajectory.take (i + 1) ++ tail).get? i = some s := by
      have hl : (solution.sub_trajectory.take i).length = i := by
        rw [List.length_take]
        omega
      rw [htake, List.append_assoc, List.get?_eq_getElem?,
        List.getElem?_append_right (by omega), hl]
      simp
    have hfail2 : FailsAt outcome (solution.sub_trajectory.take (i + 1) ++ tail) i := by
      refine ⟨⟨s, hget, hsp⟩, ?_, ?_⟩
      · rw [hpre]; exact hfail.2.1
      · rw [hpre]; exact hfail.2.2
    obtain ⟨t, ht, _, hrun2⟩ := monitorSolution_failure self outcome
      { sub_trajectory := solution.sub_trajectory.take (i + 1) ++ tail } i hfail2
    have hts : t = s := by
      have : some t = some s := by rw [← ht]; exact hget
      simpa using this
    rw [hrun2, hrun, hts]
    simp only [hpre]

/-- C2 at a concrete input: three segments, the middle one without points,
with the second Motion Executor call failing: segment 2 is the first failing
segment, both plans are handed over and only the first two diffs applied. -/
theorem monitorSolution_stops_at_failure_witness :
    FailsAt failSecondCall exampleSolution.sub_trajectory 2 ∧
      executedPlans (monitorSolution exampleHandler failSecondCall exampleSolution).2
        = ((exampleSolution.sub_trajectory.take (2 + 1)).filter hasPoints).map
            (fun s => { trajectory_ := s.trajectory }) ∧
      appliedDiffs (monitorSolution exampleHandler failSecondCall exampleSolution).2
        = (exampleSolution.sub_trajectory.take 2).map (fun s => s.scene_diff) ∧
      (∃ s, exampleSolution.sub_trajectory.get? 2 = some s ∧
        serviceCalls (monitorSolution exampleHandler failSecondCall exampleSolution).2
          = fullWalk (exampleSolution.sub_trajectory.take 2)
              ++ [Effect.execute { trajectory_ := s.trajectory }]) ∧
      (∀ tail : List SubTrajectory,
        (monitorSolution exampleHandler failSecondCall
            { sub_trajectory := exampleSolution.sub_trajectory.take (2 + 1) ++ tail }).2
          = (monitorSolution exampleHandler failSecondCall exampleSolution).2) :=
  ⟨failSecondCall_failsAt,
    monitorSolution_stops_at_failure exampleHandler failSecondCall exampleSolution 2
      failSecondCall_failsAt⟩

/-- C6: for every solution and every assignment of outcomes to the Motion
Executor calls, `monitorSolution` calls `ros::shutdown` exactly once, as its
last effect: when every execution succeeds, after the whole walk, whose last
call is the application of the last segment's scene diff; and when segment
`i` is the first to fail, right after the failed execution of segment `i`. -/
theorem monitorSolution_shutdown_last (self : ExecuteFirstSolution) (outcome : Nat → Bool)
    (solution : Solution) :
    (monitorSolution self outcome solution).2.count Effect.rosShutdown = 1 ∧
      (monitorSolution self outcome solution).2.getLast? = some Effect.rosShutdown ∧
      ((AllSucceed outcome solution.sub_trajectory ∧
          withoutLog (monitorSolution self outcome solution).2
            = [Effect.listenerShutdown, Effect.consoleRead]
                ++ fullWalk solution.sub_trajectory ++ [Effect.rosShutdown] ∧
          appliedDiffs (monitorSolution self outcome solution).2
            = solution.sub_trajectory.map (fun s => s.scene_diff) ∧
          (∀ last, solution.sub_trajectory.getLast? = some last →
            ∃ before, withoutLog (monitorSolution self outcome solution).2
              = before ++ [Effect.applyPlanningScene last.scene_diff, Effect.rosShutdown])) ∨
        (∃ i s, FailsAt outcome solution.sub_trajectory i ∧
          solution.sub_trajectory.get? i = some s ∧
          withoutLog (monitorSolution self outcome solution).2
            = [Effect.listenerShutdown, Effect.consoleRead]
                ++ fullWalk (solution.sub_trajectory.take i)
                ++ [Effect.execute { trajectory_ := s.trajectory }, Effect.rosShutdown])) := by
  rcases monitorSolution_cases self outcome solution with ⟨hall, hrun⟩ | ⟨i, s, hfail, hs, hsp, hrun⟩
  · have hlog : withoutLog (monitorSolution self outcome solution).2
        = [Effect.listenerShutdown, Effect.consoleRead]
            ++ fullWalk solution.sub_trajectory ++ [Effect.rosShutdown] := by
      rw [hrun, withoutLog_append, withoutLog_append, withoutLog_segments]
      simp [withoutLog, preamble, epilogue]
    refine ⟨?_, ?_, Or.inl ⟨hall, hlog, ?_, ?_⟩⟩
    · rw [hrun, List.count_append, List.count_append,
        List.count_eq_zero.mpr (rosShutdown_not_mem_segments _)]
      simp [preamble, epilogue]
    · rw [hrun]
      simp [epilogue]
    · rw [hrun, appliedDiffs_append, appliedDiffs_append, appliedDiffs_segments]
      simp [appliedDiffs, preamble, epilogue]
    · intro last hlast
      obtain ⟨init, hinit⟩ := List.getLast?_eq_some_iff.mp hlast
      refine ⟨[Effect.listenerShutdown, Effect.consoleRead] ++ fullWalk init
        ++ (if hasPoints last then [Effect.execute (planOf last)] else []), ?_⟩
      rw [hlog, hinit, fullWalk_append]
      simp [fullWalk]
  · refine ⟨?_, ?_, Or.inr ⟨i, s, hfail, hs, ?_⟩⟩
    · rw [hrun, List.count_append, List.count_append,
        List.count_eq_zero.mpr (rosShutdown_not_mem_segments _)]
      simp [preamble, failEffects]
    · rw [hrun]
      simp [failEffects]
    · rw [hrun, withoutLog_append, withoutLog_append, withoutLog_segments]
      simp [withoutLog, preamble, failEffects, planOf]

/-- C7: for every solution, the effects of `monitorSolution` begin with the
shutdown of the subscription, two log lines and one console read; there is no
other subscription shutdown or console read, and every Motion Executor call and
every scene-diff application comes after them; the subscription handle is
inactive afterwards, so that later inbound messages are dropped and of any
sequence of inbound messages only the first enters the callback. -/
theorem monitorSolution_gate_first (self : ExecuteFirstSolution) (outcome : Nat → Bool)
    (solution : Solution) :
    (∃ rest,
      (monitorSolution self outcome solution).2
        = [Effect.listenerShutdown,
           Effect.info "Received first solution. Executing.",
           Effect.info "waiting for confirmation",
           Effect.consoleRead] ++ rest ∧
      Effect.listenerShutdown ∉ rest ∧
      Effect.consoleRead ∉ rest ∧
      serviceCalls rest = serviceCalls (monitorSolution self outcome solution).2) ∧
      (monitorSolution self outcome solution).2.count Effect.consoleRead = 1 ∧
      (withoutLog (monitorSolution self outcome solution).2).take 2
        = [Effect.listenerShutdown, Effect.consoleRead] ∧
      (monitorSolution self outcome solution).1.listener_ = false ∧
      (∀ (entered : Nat) (trace : List Effect) (later : List ((Nat → Bool) × Solution)),
        later.foldl deliver
            { handler := (monitorSolution self outcome solution).1,
              entered := entered, trace := trace }
          = { handler := (monitorSolution self outcome solution).1,
              entered := entered, trace := trace }) ∧
      (∀ (topic planning_group : String) (later : List ((Nat → Bool) × Solution)),
        (deliverAll topic planning_group ((outcome, solution) :: later)).entered = 1 ∧
        (deliverAll topic planning_group ((outcome, solution) :: later)).trace
          = (monitorSolution (ExecuteFirstSolution.ctor topic planning_group)
              outcome solution).2) := by
  have hrest : ∃ rest, (monitorSolution self outcome solution).2 = preamble ++ rest ∧
      Effect.listenerShutdown ∉ rest ∧ Effect.consoleRead ∉ rest := by
    rcases monitorSolution_cases self outcome solution with
      ⟨_, hrun⟩ | ⟨i, s, _, _, _, hrun⟩
    · refine ⟨solution.sub_trajectory.flatMap segmentEffects ++ epilogue, ?_, ?_, ?_⟩
      · rw [hrun, List.append_assoc]
      · intro h
        rcases List.mem_append.mp h with h1 | h1
        · exact listenerShutdown_not_mem_segments _ h1
        · simp [epilogue] at h1
      · intro h
        rcases List.mem_append.mp h with h1 | h1
        · exact consoleRead_not_mem_segments _ h1
        · simp [epilogue] at h1
    · refine ⟨(solution.sub_trajectory.take i).flatMap segmentEffects ++ failEffects s,
        ?_, ?_, ?_⟩
      · rw [hrun, List.append_assoc]
      · intro h
        rcases List.mem_append.mp h with h1 | h1
        · exact listenerShutdown_not_mem_segments _ h1
        · simp [failEffects] at h1
      · intro h
        rcases List.mem_append.mp h with h1 | h1
        · exact consoleRead_not_mem_segments _ h1
        · simp [failEffects] at h1
  obtain ⟨rest, hrun, hls, hcr⟩ := hrest
  refine ⟨⟨rest, hrun, hls, hcr, ?_⟩, ?_, ?_, rfl,
    fun entered trace later => deliver_closed _ later rfl, ?_⟩
  · rw [hrun, serviceCalls_append]
    simp [serviceCalls, preamble]
  · rw [hrun, List.count_append, List.count_eq_zero.mpr hcr]
    simp [preamble]
  · rw [hrun, withoutLog_append]
    simp [withoutLog, preamble]
  · intro topic planning_group later
    have hstep : deliver
        { handler := ExecuteFirstSolution.ctor topic planning_group, entered := 0, trace := [] }
        (outcome, solution)
        = { handler := (monitorSolution (ExecuteFirstSolution.ctor topic planning_group)
              outcome solution).1,
            entered := 1,
            trace := (monitorSolution (ExecuteFirstSolution.ctor topic planning_group)
              outcome solution).2 } := by
      simp [deliver, ExecuteFirstSolution.ctor]
    unfold deliverAll
    rw [List.foldl_cons, hstep, deliver_closed _ later rfl]
    exact ⟨rfl, rfl⟩

end MtcPour
